import Mathlib

/-!
Verification of the `Session` layer of the ssh2 bindings (src/src/session.rs).

The Rust code wraps a stateful C engine (libssh2).  We embed each public
operation of `Session` as a pure Lean function over an explicit `EngineState`
record that carries the engine's responses for one invocation: the result of
the last-error query, the `authenticated` flag, and the raw (possibly null)
results of the individual engine calls.  A null pointer returned by the engine
is modelled as `none`; calls that `.unwrap()` a possibly-absent error are
modelled with an explicit `panicked` outcome so that abort behaviour is
visible in the embedding.
-/

namespace Ssh2

/-- A typed error value: numeric code plus message, as produced by the
engine's last-error facility (`Error::last_error`). -/
structure Error where
  code : Int
  msg : String
  deriving DecidableEq, Repr

/-- Host-key type tag returned by `host_key` (the crate's
`TypeRsa | TypeDss | TypeUnknown`). -/
inductive HostKeyType where
  | rsa
  | dss
  | unknown
  deriving DecidableEq, Repr

/-- Modelled from the spec: the engine's host-key type code for RSA keys
(`raw::LIBSSH2_HOSTKEY_TYPE_RSA`, declared in the raw bindings, which are not
part of the given source). -/
def LIBSSH2_HOSTKEY_TYPE_RSA : Int := 1

/-- Modelled from the spec: the engine's host-key type code for DSS keys
(`raw::LIBSSH2_HOSTKEY_TYPE_DSS`). -/
def LIBSSH2_HOSTKEY_TYPE_DSS : Int := 2

/-- Modelled from the spec: the engine-default channel window size
(`raw::LIBSSH2_CHANNEL_WINDOW_DEFAULT`, declared in the raw bindings). -/
def LIBSSH2_CHANNEL_WINDOW_DEFAULT : Nat := 2 * 1024 * 1024

/-- Modelled from the spec: the engine-default channel packet size
(`raw::LIBSSH2_CHANNEL_PACKET_DEFAULT`). -/
def LIBSSH2_CHANNEL_PACKET_DEFAULT : Nat := 32768

/-- Disconnect reason codes (the crate's `DisconnectCode` enum; declared
outside the given source, values are the SSH protocol's disconnect codes).
Only the constructors needed by the claims are modelled. -/
inductive DisconnectCode where
  | protocolError
  | byApplication
  | authCancelledByUser
  deriving DecidableEq, Repr

/-- The `as c_int` cast of a `DisconnectCode` (SSH disconnect reason codes). -/
def DisconnectCode.code : DisconnectCode → Int
  | .protocolError => 2
  | .byApplication => 11
  | .authCancelledByUser => 13

/-- A channel handle, standing for the non-null pointer wrapped by
`Channel::from_raw`. -/
structure Channel where
  raw : Nat
  deriving DecidableEq, Repr

/-- An agent handle, standing for the non-null pointer wrapped by
`Agent::from_raw`. -/
structure Agent where
  raw : Nat
  deriving DecidableEq, Repr

/-- Outcome of an operation that, in the Rust source, either returns
`Ok`, returns `Err`, or aborts the process (`Option::unwrap` on `None`). -/
inductive Outcome (α : Type) where
  | ok : α → Outcome α
  | err : Error → Outcome α
  | panicked : Outcome α
  deriving DecidableEq, Repr

/-- The engine's responses for one `Session` invocation.  Each field is the
value the corresponding raw engine call would produce; `none` stands for a
null pointer.  `lastError` is the result of the last-error query
(`Error::last_error`), modelled from the spec: `none` when the engine reports
"no last error". -/
structure EngineState where
  lastError : Option Error
  authenticatedFlag : Bool
  bannerRaw : Option (List UInt8)
  hostkeyRaw : Option (List UInt8 × Int)
  userauthList : String → Option String
  channelOpenRaw : String → Nat → Nat → Option String → Option Nat
  supportedAlgsRaw : Int → Int × List String
  agentInitRaw : Option Nat
  disconnectRaw : Int → String → String → Int

namespace Session

/-- Embedding of `Session::rc` (session.rs:301-310): translate a raw integer
status into a `Result`.  Zero is success; otherwise the last-error query is
consulted, and its absence is also translated to success. -/
def rc (s : EngineState) (code : Int) : Except Error Unit :=
  if code = 0 then
    .ok ()
  else
    match s.lastError with
    | some e => .error e
    | none => .ok ()

/-- Embedding of `Session::authenticated` (session.rs:269-271). -/
def authenticated (s : EngineState) : Bool :=
  s.authenticatedFlag

/-- Embedding of `Session::banner_bytes` (session.rs:50-52): `opt_bytes`
applied to the engine's banner pointer, i.e. `none` on a null pointer and the
pointed bytes otherwise. -/
def banner_bytes (s : EngineState) : Option (List UInt8) :=
  s.bannerRaw

/-- Whether a byte is a UTF-8 continuation byte (`10xxxxxx`). -/
def utf8Cont (b : UInt8) : Bool :=
  0x80 ≤ b && b ≤ 0xBF

/-- Modelled from the spec: `str::from_utf8` ("invalid text encoding" yields
absence; the standard library's decoder is not part of the given source).
Fuel-indexed UTF-8 decoder; the fuel is instantiated with the list length,
which every step strictly decreases, so it never runs out. -/
def utf8DecodeAux : Nat → List UInt8 → Option (List Char)
  | _, [] => some []
  | 0, _ :: _ => none
  | fuel + 1, b :: rest =>
    if b ≤ 0x7F then
      (utf8DecodeAux fuel rest).map (fun cs => Char.ofNat b.toNat :: cs)
    else if 0xC2 ≤ b && b ≤ 0xDF then
      match rest with
      | b1 :: rest1 =>
        if utf8Cont b1 then
          (utf8DecodeAux fuel rest1).map (fun cs =>
            Char.ofNat ((b.toNat - 0xC0) * 0x40 + (b1.toNat - 0x80)) :: cs)
        else none
      | [] => none
    else if 0xE0 ≤ b && b ≤ 0xEF then
      match rest with
      | b1 :: b2 :: rest2 =>
        let ok1 :=
          if b = 0xE0 then 0xA0 ≤ b1 && b1 ≤ 0xBF
          else if b = 0xED then 0x80 ≤ b1 && b1 ≤ 0x9F
          else utf8Cont b1
        if ok1 && utf8Cont b2 then
          (utf8DecodeAux fuel rest2).map (fun cs =>
            Char.ofNat ((b.toNat - 0xE0) * 0x1000 +
              (b1.toNat - 0x80) * 0x40 + (b2.toNat - 0x80)) :: cs)
        else none
      | _ => none
    else if 0xF0 ≤ b && b ≤ 0xF4 then
      match rest with
      | b1 :: b2 :: b3 :: rest3 =>
        let ok1 :=
          if b = 0xF0 then 0x90 ≤ b1 && b1 ≤ 0xBF
          else if b = 0xF4 then 0x80 ≤ b1 && b1 ≤ 0x8F
          else utf8Cont b1
        if ok1 && utf8Cont b2 && utf8Cont b3 then
          (utf8DecodeAux fuel rest3).map (fun cs =>
            Char.ofNat ((b.toNat - 0xF0) * 0x40000 +
              (b1.toNat - 0x80) * 0x1000 +
              (b2.toNat - 0x80) * 0x40 + (b3.toNat - 0x80)) :: cs)
        else none
      | _ => none
    else none

/-- Embedding of `str::from_utf8` on a byte list: `some` of the decoded
string when the bytes are valid UTF-8, `none` otherwise. -/
def utf8Decode (bs : List UInt8) : Option String :=
  (utf8DecodeAux bs.length bs).map (fun cs => String.mk cs)

/-- Embedding of `Session::banner` (session.rs:43-45):
`banner_bytes().and_then(str::from_utf8)`. -/
def banner (s : EngineState) : Option String :=
  (banner_bytes s).bind utf8Decode

/-- Embedding of `Session::host_key` (session.rs:139-156): null yields
`none`; otherwise the pointed bytes of the engine-reported length are paired
with the decoded type tag. -/
def host_key (s : EngineState) : Option (List UInt8 × HostKeyType) :=
  match s.hostkeyRaw with
  | none => none
  | some (data, kind) =>
    let kind :=
      if kind = LIBSSH2_HOSTKEY_TYPE_RSA then HostKeyType.rsa
      else if kind = LIBSSH2_HOSTKEY_TYPE_DSS then HostKeyType.dss
      else HostKeyType.unknown
    some (data, kind)

/-- Embedding of `Session::auth_methods` (session.rs:283-295): a null result
from `libssh2_userauth_list` yields `Err(Error::last_error(self).unwrap())`
— the `unwrap` aborts when the last-error query yields nothing.  A non-null
result is returned as the comma-separated scheme list. -/
def auth_methods (s : EngineState) (username : String) : Outcome String :=
  match s.userauthList username with
  | none =>
    match s.lastError with
    | some e => .err e
    | none => .panicked
  | some list => .ok list

/-- Embedding of `Session::channel_open` (session.rs:236-258): a null result
yields `Err(Error::last_error(self).unwrap())`; a non-null result is wrapped
by `Channel::from_raw`. -/
def channel_open (s : EngineState) (channel_type : String)
    (window_size packet_size : Nat) (message : Option String) :
    Outcome Channel :=
  match s.channelOpenRaw channel_type window_size packet_size message with
  | none =>
    match s.lastError with
    | some e => .err e
    | none => .panicked
  | some h => .ok ⟨h⟩

/-- Embedding of `Session::channel_session` (session.rs:261-265). -/
def channel_session (s : EngineState) : Outcome Channel :=
  channel_open s "session" LIBSSH2_CHANNEL_WINDOW_DEFAULT
    LIBSSH2_CHANNEL_PACKET_DEFAULT none

/-- From the spec's words, for comparison with the source's
`channel_session`: "convenience specialization with type `session` and
engine-default window/packet sizes, no payload". -/
def channel_session_specSide (s : EngineState) : Outcome Channel :=
  channel_open s "session" LIBSSH2_CHANNEL_WINDOW_DEFAULT
    LIBSSH2_CHANNEL_PACKET_DEFAULT none

/-- Embedding of `Session::agent` (session.rs:209-218): a null result from
`libssh2_agent_init` yields `Err(Error::last_error(self).unwrap())`;
otherwise the handle is wrapped by `Agent::from_raw`. -/
def agent (s : EngineState) : Outcome Agent :=
  match s.agentInitRaw with
  | none =>
    match s.lastError with
    | some e => .err e
    | none => .panicked
  | some h => .ok ⟨h⟩

/-- Embedding of `Session::supported_algs` (session.rs:189-204): the engine
call yields a count `rcv` and a pointed array of names; a non-positive count
is passed through `try!(self.rc(rcv))`, after which the copy loop
`for i in range(0, rcv as int)` pushes the first `rcv` entries (nothing when
`rcv ≤ 0`). -/
def supported_algs (s : EngineState) (method_type : Int) :
    Except Error (List String) :=
  let r := s.supportedAlgsRaw method_type
  let rcv := r.1
  let algs := r.2
  if rcv ≤ 0 then
    match rc s rcv with
    | .error e => .error e
    | .ok _ => .ok (algs.take rcv.toNat)
  else
    .ok (algs.take rcv.toNat)

/-- The arguments carried by the disconnect notification actually handed to
the engine (`libssh2_session_disconnect_ex`). -/
structure DisconnectCall where
  reason : Int
  description : String
  lang : String
  deriving DecidableEq, Repr

/-- Embedding of `Session::disconnect` (session.rs:71-84): the reason
defaults to `ByApplication`, the language to `""`, and the resulting engine
status is translated through `rc`.  The call actually issued to the engine is
returned alongside the result so that theorems can speak about what was
sent. -/
def disconnect (s : EngineState) (reason : Option DisconnectCode)
    (description : String) (lang : Option String) :
    DisconnectCall × Except Error Unit :=
  let r := (reason.getD .byApplication).code
  let l := lang.getD ""
  (⟨r, description, l⟩, rc s (s.disconnectRaw r description l))

/-- Events observable during `Session::new`. -/
inductive NewEvent where
  | libraryInit
  | sessionAlloc (myAlloc myFree myRealloc : Option Nat)
  deriving DecidableEq, Repr

/-- A freshly constructed session: just the owned raw handle. -/
structure State where
  raw : Nat
  deriving DecidableEq, Repr

/-- Embedding of `Session::new` (session.rs:17-24): `::init()` (modelled from
the spec: the one-time idempotent process-wide initialization, whose code is
outside the given source) runs first, then
`libssh2_session_init_ex(None, None, None)` is called; a null allocation
yields `none`, otherwise the handle is adopted by `from_raw`.  The event
trace of engine interactions is returned alongside the result. -/
def new (allocRaw : Option Nat) : List NewEvent × Option State :=
  ([NewEvent.libraryInit, NewEvent.sessionAlloc none none none],
   match allocRaw with
   | none => none
   | some h => some ⟨h⟩)

end Session

/-- A concrete engine state used to instantiate theorems with hypotheses:
every engine call succeeds and a last error is retrievable. -/
def wOk : EngineState where
  lastError := some ⟨-7, "failure"⟩
  authenticatedFlag := false
  bannerRaw := some [72, 105]
  hostkeyRaw := some ([1, 2, 3], 1)
  userauthList := fun _ => some "password,publickey"
  channelOpenRaw := fun _ _ _ _ => some 4
  supportedAlgsRaw := fun _ => (2, ["alga", "algb", "algc"])
  agentInitRaw := some 5
  disconnectRaw := fun _ _ _ => 0

/-- A concrete engine state in which every engine call signals failure by a
null result and the last-error query yields nothing. -/
def wNull : EngineState where
  lastError := none
  authenticatedFlag := false
  bannerRaw := none
  hostkeyRaw := none
  userauthList := fun _ => none
  channelOpenRaw := fun _ _ _ _ => none
  supportedAlgsRaw := fun _ => (-3, [])
  agentInitRaw := none
  disconnectRaw := fun _ _ _ => -1

/-- A concrete engine state in which the auth-method listing is null while
the session is authenticated and a last error is retrievable. -/
def wAuthed : EngineState :=
  { wNull with authenticatedFlag := true, lastError := some ⟨-18, "auth fail"⟩ }

/-- A concrete engine state in which the supported-algorithms call returns a
zero count while a last error is retrievable. -/
def wZeroAlgs : EngineState :=
  { wOk with supportedAlgsRaw := fun _ => (0, []) }

/-- A concrete engine state in which the supported-algorithms call returns a
negative count while a last error is retrievable. -/
def wNegAlgs : EngineState :=
  { wOk with supportedAlgsRaw := fun _ => (-4, []) }

/-- A concrete engine state whose host key carries the DSS type code. -/
def wDss : EngineState :=
  { wOk with hostkeyRaw := some ([4], LIBSSH2_HOSTKEY_TYPE_DSS) }

/-- A concrete engine state whose host key carries an unrecognised type
code. -/
def wUnk : EngineState :=
  { wOk with hostkeyRaw := some ([5], 7) }

/-- C1: `Session::rc` translates a zero status to success; a non-zero status
with a retrievable last error to exactly that error; and a non-zero status
with no retrievable last error to success. -/
theorem rc_translation (s : EngineState) (code : Int) :
    (code = 0 → Session.rc s code = .ok ()) ∧
    (code ≠ 0 → ∀ e, s.lastError = some e → Session.rc s code = .error e) ∧
    (code ≠ 0 → s.lastError = none → Session.rc s code = .ok ()) :=
  ⟨fun h => by simp [Session.rc, h],
   fun h e he => by simp [Session.rc, h, he],
   fun h he => by simp [Session.rc, h, he]⟩

/-- C1 witness: the three branches of the translation at concrete states. -/
theorem rc_translation_holds :
    Session.rc wOk 0 = .ok () ∧
    Session.rc wOk (-5) = .error ⟨-7, "failure"⟩ ∧
    Session.rc wNull (-5) = .ok () :=
  ⟨(rc_translation wOk 0).1 rfl,
   (rc_translation wOk (-5)).2.1 (by decide) ⟨-7, "failure"⟩ rfl,
   (rc_translation wNull (-5)).2.2 (by decide) rfl⟩

/-- C2 counterexample: with a null auth-method listing, `authenticated()`
true, and a retrievable last error, `auth_methods` returns that error rather
than reporting success as the claim requires — it never consults
`authenticated()`. -/
theorem auth_methods_ignores_authenticated :
    Session.authenticated wAuthed = true ∧
    wAuthed.userauthList "user" = none ∧
    Session.auth_methods wAuthed "user" = .err ⟨-18, "auth fail"⟩ :=
  ⟨rfl, rfl, rfl⟩

/-- C2 amended: on a null auth-method listing, `auth_methods` does not
consult `authenticated()`: it unconditionally returns the last error when one
is retrievable and panics otherwise; a non-null listing is returned as
success.  Its result is invariant under the `authenticated` flag. -/
theorem auth_methods_amended (s : EngineState) (u : String) :
    (∀ l, s.userauthList u = some l → Session.auth_methods s u = .ok l) ∧
    (s.userauthList u = none → ∀ e, s.lastError = some e →
      Session.auth_methods s u = .err e) ∧
    (s.userauthList u = none → s.lastError = none →
      Session.auth_methods s u = .panicked) ∧
    (∀ b, Session.auth_methods { s with authenticatedFlag := b } u =
      Session.auth_methods s u) :=
  ⟨fun l hl => by simp [Session.auth_methods, hl],
   fun hn e he => by simp [Session.auth_methods, hn, he],
   fun hn he => by simp [Session.auth_methods, hn, he],
   fun b => rfl⟩

/-- C2 witness: the three result shapes of `auth_methods` at concrete
states. -/
theorem auth_methods_amended_holds :
    Session.auth_methods wOk "user" = .ok "password,publickey" ∧
    Session.auth_methods wAuthed "other" = .err ⟨-18, "auth fail"⟩ ∧
    Session.auth_methods wNull "user" = .panicked :=
  ⟨(auth_methods_amended wOk "user").1 _ rfl,
   (auth_methods_amended wAuthed "other").2.1 rfl ⟨-18, "auth fail"⟩ rfl,
   (auth_methods_amended wNull "user").2.2.1 rfl rfl⟩

/-- C3 counterexample: with a zero (hence non-positive) count from the
engine and a retrievable last error, `supported_algs` returns a successful
empty list, not an error. -/
theorem supported_algs_nonpositive_not_error :
    (wZeroAlgs.supportedAlgsRaw 3).1 = 0 ∧
    wZeroAlgs.lastError = some ⟨-7, "failure"⟩ ∧
    Session.supported_algs wZeroAlgs 3 = .ok [] :=
  ⟨rfl, rfl, rfl⟩

/-- C3 amended: a non-positive count is passed through the `rc` translation:
when that yields an error the error is returned, but otherwise (zero count,
or negative count with no retrievable last error) a successful empty list is
returned; a positive count yields the first `count` names. -/
theorem supported_algs_amended (s : EngineState) (mt : Int) :
    ((s.supportedAlgsRaw mt).1 ≤ 0 → ∀ e,
      Session.rc s (s.supportedAlgsRaw mt).1 = .error e →
      Session.supported_algs s mt = .error e) ∧
    ((s.supportedAlgsRaw mt).1 ≤ 0 →
      Session.rc s (s.supportedAlgsRaw mt).1 = .ok () →
      Session.supported_algs s mt = .ok []) ∧
    (0 < (s.supportedAlgsRaw mt).1 →
      Session.supported_algs s mt =
        .ok ((s.supportedAlgsRaw mt).2.take (s.supportedAlgsRaw mt).1.toNat)) :=
  ⟨fun h e he => by simp [Session.supported_algs, h, he],
   fun h he => by simp [Session.supported_algs, h, he, Int.toNat_eq_zero],
   fun h => by simp [Session.supported_algs, not_le.mpr h]⟩

/-- C3 witness: the error, empty-success, and positive-count branches at
concrete states. -/
theorem supported_algs_amended_holds :
    Session.supported_algs wNegAlgs 1 = .error ⟨-7, "failure"⟩ ∧
    Session.supported_algs wZeroAlgs 1 = .ok [] ∧
    Session.supported_algs wOk 1 = .ok ["alga", "algb"] :=
  ⟨(supported_algs_amended wNegAlgs 1).1 (by decide) ⟨-7, "failure"⟩ rfl,
   (supported_algs_amended wZeroAlgs 1).2.1 (by decide) rfl,
   (supported_algs_amended wOk 1).2.2 (by decide)⟩

/-- C4 counterexample: when the engine signals failure by a null result and
the last-error query yields no error, `channel_open`, `auth_methods`, and
`agent` all abort (unwrap of an absent error) instead of returning a typed
result. -/
theorem null_without_error_aborts :
    Session.channel_open wNull "session" 1024 512 none = .panicked ∧
    Session.auth_methods wNull "root" = .panicked ∧
    Session.agent wNull = .panicked :=
  ⟨rfl, rfl, rfl⟩

/-- C4 amended: `channel_open`, `auth_methods`, and `agent` abort precisely
when the engine signals failure by a null result and the last-error query
yields no error; in every other case they return a typed success-or-error
result. -/
theorem abort_characterisation (s : EngineState) (ct : String) (w p : Nat)
    (msg : Option String) (u : String) :
    (Session.channel_open s ct w p msg = .panicked ↔
      s.channelOpenRaw ct w p msg = none ∧ s.lastError = none) ∧
    (Session.auth_methods s u = .panicked ↔
      s.userauthList u = none ∧ s.lastError = none) ∧
    (Session.agent s = .panicked ↔
      s.agentInitRaw = none ∧ s.lastError = none) := by
  refine ⟨?_, ?_, ?_⟩
  · cases hc : s.channelOpenRaw ct w p msg <;> cases he : s.lastError <;>
      simp [Session.channel_open, hc, he]
  · cases hc : s.userauthList u <;> cases he : s.lastError <;>
      simp [Session.auth_methods, hc, he]
  · cases hc : s.agentInitRaw <;> cases he : s.lastError <;>
      simp [Session.agent, hc, he]

/-- C5: `banner` and `banner_bytes` never return an error: a null engine
banner yields absence for both; a non-null banner yields exactly its bytes
from `banner_bytes`, while `banner` yields the decoded text when the bytes
are valid UTF-8 and absence otherwise. -/
theorem banner_never_errors (s : EngineState) :
    (s.bannerRaw = none → Session.banner_bytes s = none ∧ Session.banner s = none) ∧
    (∀ b, s.bannerRaw = some b → Session.banner_bytes s = some b) ∧
    (∀ b, s.bannerRaw = some b → Session.utf8Decode b = none →
      Session.banner s = none) ∧
    (∀ b t, s.bannerRaw = some b → Session.utf8Decode b = some t →
      Session.banner s = some t) :=
  ⟨fun h => by simp [Session.banner_bytes, Session.banner, h],
   fun b hb => by simp [Session.banner_bytes, hb],
   fun b hb hd => by simp [Session.banner, Session.banner_bytes, hb, hd],
   fun b t hb hd => by simp [Session.banner, Session.banner_bytes, hb, hd]⟩

/-- C5 witness: the absent and present banner cases at concrete states. -/
theorem banner_never_errors_holds :
    Session.banner_bytes wNull = none ∧ Session.banner wNull = none ∧
    Session.banner_bytes wOk = some [72, 105] ∧ Session.banner wOk = some "Hi" :=
  ⟨((banner_never_errors wNull).1 rfl).1,
   ((banner_never_errors wNull).1 rfl).2,
   (banner_never_errors wOk).2.1 _ rfl,
   (banner_never_errors wOk).2.2.2 _ _ rfl (by decide)⟩

/-- C6: `new` performs the process-wide library initialization and then the
allocation with no custom I/O callbacks, in that order; it returns absence
exactly when the allocation is null and otherwise a session owning the
allocated handle. -/
theorem new_behaviour (allocRaw : Option Nat) :
    (Session.new allocRaw).1 =
      [Session.NewEvent.libraryInit, Session.NewEvent.sessionAlloc none none none] ∧
    ((Session.new allocRaw).2 = none ↔ allocRaw = none) ∧
    (∀ h, allocRaw = some h → (Session.new allocRaw).2 = some ⟨h⟩) := by
  refine ⟨rfl, ?_, fun h hh => by simp [Session.new, hh]⟩
  cases allocRaw <;> simp [Session.new]

/-- C6 witness: allocation success and failure at concrete inputs. -/
theorem new_behaviour_holds :
    (Session.new (some 9)).2 = some ⟨9⟩ ∧ (Session.new none).2 = none :=
  ⟨(new_behaviour (some 9)).2.2 9 rfl, (new_behaviour none).2.1.mpr rfl⟩

/-- C7: `channel_session` is observationally equal to `channel_open` with
channel type "session", the engine-default window and packet sizes, and no
open payload. -/
theorem channel_session_refines (s : EngineState) :
    Session.channel_session s = Session.channel_session_specSide s :=
  rfl

/-- C8: `host_key` is absent exactly when the engine supplies no host key;
otherwise it returns the engine's key bytes together with the RSA tag for
the engine's RSA code, the DSS tag for the DSS code, and Unknown for every
other code. -/
theorem host_key_behaviour (s : EngineState) :
    (Session.host_key s = none ↔ s.hostkeyRaw = none) ∧
    (∀ data, s.hostkeyRaw = some (data, LIBSSH2_HOSTKEY_TYPE_RSA) →
      Session.host_key s = some (data, HostKeyType.rsa)) ∧
    (∀ data, s.hostkeyRaw = some (data, LIBSSH2_HOSTKEY_TYPE_DSS) →
      Session.host_key s = some (data, HostKeyType.dss)) ∧
    (∀ data kind, s.hostkeyRaw = some (data, kind) →
      kind ≠ LIBSSH2_HOSTKEY_TYPE_RSA → kind ≠ LIBSSH2_HOSTKEY_TYPE_DSS →
      Session.host_key s = some (data, HostKeyType.unknown)) := by
  refine ⟨?_, fun data h => by simp [Session.host_key, h],
    fun data h => by
      simp [Session.host_key, h, LIBSSH2_HOSTKEY_TYPE_RSA, LIBSSH2_HOSTKEY_TYPE_DSS],
    fun data kind h h1 h2 => by simp [Session.host_key, h, h1, h2]⟩
  cases h : s.hostkeyRaw with
  | none => simp [Session.host_key, h]
  | some dk => simp [Session.host_key, h]

/-- C8 witness: the RSA, DSS, unknown, and absent cases at concrete
states. -/
theorem host_key_behaviour_holds :
    Session.host_key wOk = some ([1, 2, 3], HostKeyType.rsa) ∧
    Session.host_key wDss = some ([4], HostKeyType.dss) ∧
    Session.host_key wUnk = some ([5], HostKeyType.unknown) ∧
    Session.host_key wNull = none :=
  ⟨(host_key_behaviour wOk).2.1 _ rfl,
   (host_key_behaviour wDss).2.2.1 _ rfl,
   (host_key_behaviour wUnk).2.2.2 _ 7 rfl (by decide) (by decide),
   (host_key_behaviour wNull).1.mpr rfl⟩

/-- C9: `disconnect` hands the engine a notification whose reason defaults
to the by-application code and whose language defaults to empty text when
unspecified, passing the description through unchanged, and translates the
engine's status through `rc`. -/
theorem disconnect_behaviour (s : EngineState) (reason : Option DisconnectCode)
    (description : String) (lang : Option String) :
    (Session.disconnect s reason description lang).1 =
      ⟨(reason.getD DisconnectCode.byApplication).code, description, lang.getD ""⟩ ∧
    (Session.disconnect s none description none).1 =
      ⟨DisconnectCode.byApplication.code, description, ""⟩ ∧
    (Session.disconnect s reason description lang).2 =
      Session.rc s (s.disconnectRaw
        (reason.getD DisconnectCode.byApplication).code description (lang.getD "")) :=
  ⟨rfl, rfl, rfl⟩

/-- C10: when the engine's supported-algorithms call returns a negative
count but the last-error query yields no error, `supported_algs` returns
success with the empty list. -/
theorem supported_algs_negative_no_error (s : EngineState) (mt : Int)
    (hneg : (s.supportedAlgsRaw mt).1 < 0) (hnone : s.lastError = none) :
    Session.supported_algs s mt = .ok [] := by
  have h0 : (s.supportedAlgsRaw mt).1 ≤ 0 := le_of_lt hneg
  have hne : (s.supportedAlgsRaw mt).1 ≠ 0 := ne_of_lt hneg
  simp [Session.supported_algs, Session.rc, h0, hne, hnone, Int.toNat_eq_zero]

/-- C10 witness: the negative-count, no-last-error state yields the empty
successful list. -/
theorem supported_algs_negative_no_error_holds :
    Session.supported_algs wNull 0 = .ok [] :=
  supported_algs_negative_no_error wNull 0 (by decide) rfl

end Ssh2
